import Mathlib

/-!
Verification of the request-processing pipeline of the NestJS API starter kit.

The development shallowly embeds the pipeline components that carry the
repository's algorithmic content:

* the custom `ThrottlerGuard` (tracker and key derivation, rejection payload),
  together with the three-tier throttler configuration from `AppModule` and
  the per-endpoint `ThrottleEndpoint` override decorators;
* the `GlobalExceptionFilter` error normalizer;
* the custom `ValidationPipe` flattening of nested validation errors;
* the `LoggingInterceptor`;
* the `ParseDatePipe` and `ParseOptionalDatePipe`.

JavaScript truthiness on strings and numbers (the source relies on the
logical-or fallback idiom) is modelled explicitly: a missing value or the
empty string is falsy, the number 0 is falsy.
-/

namespace NestStarter

/-- JavaScript `a || b` on a possibly-missing string: `none` and the empty
string are falsy and fall through to the default. -/
def jsOrStr : Option String → String → String
  | none, d => d
  | some s, d => if s = "" then d else s

/-- JavaScript `a || b` on a number, where only 0 is falsy (the source uses
it on HTTP status codes). -/
def jsOrNat (n d : Nat) : Nat := if n = 0 then d else n

/-- The request metadata the pipeline components read: method, url,
`request.ip`, `request.connection.remoteAddress`, the matched route pattern
`request.route.path` (absent when no route matched), and the user agent
header. -/
structure Req where
  method : String
  url : String
  ip : Option String
  remoteAddress : Option String
  routePath : Option String
  userAgent : String
deriving DecidableEq, Repr

/-- A `message` value in an exception body or envelope: the source allows a
single string or an array of strings. -/
inductive Msg where
  | str (s : String)
  | arr (ss : List String)
deriving DecidableEq, Repr

/-- One flattened validation violation as produced by
`ValidationPipe.customFlattenValidationErrors`: dotted field path, constraint
message, rejected value. -/
structure FlatErr where
  fieldPath : String
  message : String
  value : String
deriving DecidableEq, Repr

/-- Body of an `HttpException` as read by `GlobalExceptionFilter.catch`: either
a plain string or an object. Of an object body the filter reads only the
`message` and `error` keys; `errorsList` records the `errors` key that the
custom `ValidationPipe` attaches (never read by the filter). Other keys of the
source bodies (timestamp, path, method, details) are never read by any
component and are omitted. -/
inductive ExcBody where
  | obj (message : Option Msg) (error : Option String) (errorsList : Option (List FlatErr))
  | strBody (s : String)
deriving DecidableEq, Repr

/-- The closed set of failure shapes `GlobalExceptionFilter.catch` dispatches
on via ordered instanceof tests: `HttpException`, TypeORM `QueryFailedError`,
any other `Error` (with runtime name and message), and any non-`Error` value.
Each `Error`-derived variant carries its (optional) stack string. -/
inductive Exc where
  | httpE (status : Nat) (body : ExcBody) (name : String) (message : String) (stack : Option String)
  | queryFailedE (message : String) (stack : Option String)
  | errorE (name : String) (message : String) (stack : Option String)
  | unknownE
deriving DecidableEq, Repr

/-- Source `exception.stack` as the filter reads it: `Error`-derived exceptions carry
their stack option, a non-`Error` value has none (the source writes
`exception instanceof Error ? exception.stack : undefined`). -/
def excStack : Exc → Option String
  | .httpE _ _ _ _ st => st
  | .queryFailedE _ st => st
  | .errorE _ _ st => st
  | .unknownE => none

/-- Source `error.message` as read on arbitrary caught values (used by the logging
interceptor): absent on a non-`Error` failure. -/
def excMessage : Exc → Option String
  | .httpE _ _ _ m _ => some m
  | .queryFailedE m _ => some m
  | .errorE _ m _ => some m
  | .unknownE => none

/-- Status of an exception as `exception.getStatus()` would report it (500 for
non-HTTP failures, matching the filter's normalization). -/
def excStatus : Exc → Nat
  | .httpE st _ _ _ _ => st
  | .queryFailedE _ _ => 400
  | .errorE _ _ _ => 500
  | .unknownE => 500

/-- The `errors` key of an object exception body, `none` otherwise. -/
def bodyErrorsList : Exc → Option (List FlatErr)
  | .httpE _ (.obj _ _ es) _ _ _ => es
  | _ => none

/-- JavaScript `m || d` where `m` is the `message` key of an exception body:
absent and the empty string are falsy, a (possibly empty) array is truthy. -/
def jsOrMsg : Option Msg → String → Msg
  | none, d => .str d
  | some (.str s), d => if s = "" then .str d else .str s
  | some (.arr ss), _ => .arr ss

/-- The uniform error envelope object built by `GlobalExceptionFilter.catch`.
The source object literal carries exactly the keys statusCode, timestamp,
path, method, error, message and (conditionally) stack; `details` is included
here to record that the response JSON carries no details key (it is `none` in
every branch). -/
structure ErrorEnvelope where
  statusCode : Nat
  timestamp : String
  path : String
  method : String
  error : String
  message : Msg
  details : Option (List FlatErr)
  stack : Option String
deriving DecidableEq, Repr

/-- Source `GlobalExceptionFilter.catch`: ordered dispatch over the failure kind,
producing the envelope. `isDev` models `process.env.NODE_ENV` being
`development`; `nowIso` models `new Date().toISOString()`. -/
def globalCatch (isDev : Bool) (nowIso : String) (req : Req) (exc : Exc) : ErrorEnvelope :=
  let sme : Nat × Msg × String :=
    match exc with
    | .httpE st body name excMsg _ =>
      match body with
      | .obj m e _ => (st, jsOrMsg m excMsg, jsOrStr e name)
      | .strBody s => (st, .str s, name)
    | .queryFailedE _ _ => (400, .str "Database query failed", "QueryFailedError")
    | .errorE name m _ =>
      (500, .str (if m = "" then "Internal server error" else m),
        if name = "" then "InternalServerError" else name)
    | .unknownE => (500, .str "Internal server error", "UnknownError")
  { statusCode := sme.1
    timestamp := nowIso
    path := req.url
    method := req.method
    error := sme.2.2
    message := sme.2.1
    details := none
    stack := if isDev then excStack exc else none }

/-- Source `ThrottlerGuard.getTracker`: `request.ip || request.connection.remoteAddress || 'unknown'`. -/
def getTracker (req : Req) : String :=
  jsOrStr req.ip (jsOrStr req.remoteAddress "unknown")

/-- Source `ThrottlerGuard.generateKey`: the bucket key
`name + ':' + tracker + ':' + route` with `route` being
`request.route?.path || request.url`. -/
def generateKey (req : Req) (tracker : String) (name : String) : String :=
  name ++ ":" ++ tracker ++ ":" ++ jsOrStr req.routePath req.url

/-- Source `ThrottlerGuard.throwThrottlingException`: the `HttpException` thrown on
any tier rejection, with status 429 and an object body carrying the message
`Too Many Requests` and the error name `ThrottlerException`. -/
def throttlerException (_req : Req) : Exc :=
  .httpE 429 (.obj (some (.str "Too Many Requests")) (some "ThrottlerException") none)
    "HttpException" "Too Many Requests" none

/-- One configured throttler tier: name, window length in milliseconds, and
request limit. -/
structure TierCfg where
  name : String
  ttl : Nat
  limit : Nat
deriving DecidableEq, Repr

/-- In-memory counter store of the rate limiter: bucket key to
(hit count, window start). -/
abbrev Store := List (String × Nat × Nat)

def storeLookup (k : String) : Store → Option (Nat × Nat)
  | [] => none
  | (k', v) :: rest => if k' = k then some v else storeLookup k rest

def storeInsert (k : String) (v : Nat × Nat) : Store → Store
  | [] => [(k, v)]
  | (k', v') :: rest => if k' = k then (k, v) :: rest else (k', v') :: storeInsert k v rest

/-- Modelled from the spec: the windowed counter increment of the rate
limiter (spec 4.2). The storage service of the `ThrottlerGuard` base class
(package `@nestjs/throttler`) is not part of this repository's sources; the
spec describes it as fixed-window counting: look up or create the record for
the key, reset it when `now - windowStart > ttl`, then increment and report
the post-increment count. -/
def storageIncrement (key : String) (ttl : Nat) (now : Nat) (st : Store) : Store × Nat :=
  let rec0 : Nat × Nat :=
    match storeLookup key st with
    | none => (0, now)
    | some (c, w) => if now - w > ttl then (0, now) else (c, w)
  let c' := rec0.1 + 1
  (storeInsert key (c', rec0.2) st, c')

/-- Modelled from the spec: evaluation of one tier for one request (spec 4.2).
The bucket key is built by the repository's `generateKey` and `getTracker`
overrides; the request passes the tier when the post-increment count does not
exceed the tier limit. -/
def checkOne (req : Req) (now : Nat) (t : TierCfg) (st : Store) : Store × Bool :=
  let key := generateKey req (getTracker req) t.name
  let sc := storageIncrement key t.ttl now st
  (sc.1, decide (sc.2 ≤ t.limit))

/-- Modelled from the spec: tiers are evaluated in their configured order and
the first tier to reject stops evaluation (spec 4.2); increments already made
by earlier tiers are not rolled back. -/
def checkTiers (req : Req) (now : Nat) : List TierCfg → Store → Store × Bool
  | [], st => (st, true)
  | t :: ts, st =>
    let so := checkOne req now t st
    if so.2 then checkTiers req now ts so.1 else (so.1, false)

/-- Modelled from the spec: admission outcome of one request; a rejection
raises the exception built by the repository's
`ThrottlerGuard.throwThrottlingException`. -/
def runGuardReq (tiers : List TierCfg) (req : Req) (now : Nat) (st : Store) :
    Except Exc Store :=
  let so := checkTiers req now tiers st
  if so.2 then .ok so.1 else .error (throttlerException req)

/-- Modelled from the spec: a sequence of requests from one identity at the
given timestamps, returning the per-request admission decisions. -/
def guardRun (tiers : List TierCfg) (req : Req) : Store → List Nat → List Bool
  | _, [] => []
  | st, now :: rest =>
    let so := checkTiers req now tiers st
    so.2 :: guardRun tiers req so.1 rest

/-- The per-endpoint `Throttle` metadata attached by the repository's
decorators: an association of throttler names to (ttl, limit) pairs. -/
abbrev ThrottleOverride := List (String × Nat × Nat)

namespace ThrottleEndpoint

/-- Source `ThrottleEndpoint.Strict`: `Throttle` metadata naming only the `short`
throttler, with ttl 60000 and limit 10. -/
def Strict : ThrottleOverride := [("short", 60000, 10)]

/-- Source `ThrottleEndpoint.Moderate`: only the `short` throttler, ttl 60000,
limit 30. -/
def Moderate : ThrottleOverride := [("short", 60000, 30)]

/-- Source `ThrottleEndpoint.Lenient`: only the `short` throttler, ttl 60000,
limit 100. -/
def Lenient : ThrottleOverride := [("short", 60000, 100)]

/-- Source `ThrottleEndpoint.Custom`: metadata naming a throttler called `default`
(the ttl argument defaults to 60000 in the source). -/
def Custom (limit : Nat) (ttl : Nat) : ThrottleOverride := [("default", ttl, limit)]

end ThrottleEndpoint

def ovLookup (nm : String) : ThrottleOverride → Option (Nat × Nat)
  | [] => none
  | (n, t, l) :: rest => if n = nm then some (t, l) else ovLookup nm rest

/-- Per-tier application of `Throttle` route metadata, as performed by the
`ThrottlerGuard` base class that the repository's guard extends: every
configured throttler is evaluated, and the route metadata overrides the ttl
and limit only of the throttlers whose name it carries (documented behavior
of `@nestjs/throttler`, whose sources are not part of this repository). -/
def effectiveTiers (ov : ThrottleOverride) (tiers : List TierCfg) : List TierCfg :=
  tiers.map fun t =>
    match ovLookup t.name ov with
    | some (ttl', lim') => { name := t.name, ttl := ttl', limit := lim' }
    | none => t

/-- The three throttlers configured in `AppModule`: `short` at the configured
ttl and limit, `medium` at ten times both, `long` at sixty times both, with
nullish-coalescing defaults 60000 and 100. -/
def appThrottlers (cfgTtl cfgLimit : Option Nat) : List TierCfg :=
  let ttl := cfgTtl.getD 60000
  let limit := cfgLimit.getD 100
  [ { name := "short", ttl := ttl, limit := limit },
    { name := "medium", ttl := ttl * 10, limit := limit * 10 },
    { name := "long", ttl := ttl * 60, limit := limit * 60 } ]

/-- JavaScript `parseInt(s, 10)`: the longest leading run of decimal digits,
NaN (here `none`) when the string does not start with a digit. -/
def parseIntDec (s : String) : Option Nat :=
  let ds := s.data.takeWhile Char.isDigit
  if ds.isEmpty then none
  else some (ds.foldl (fun a c => a * 10 + (c.toNat - 48)) 0)

/-- Source `configuration.ts` throttle.ttl: decimal parse of `THROTTLE_TTL` with the
string default `60000` (parseInt modelled on well-formed decimal input). -/
def configThrottleTtl (env : Option String) : Option Nat :=
  parseIntDec (jsOrStr env "60000")

/-- Source `configuration.ts` throttle.limit: decimal parse of `THROTTLE_LIMIT` with
the string default `100`. -/
def configThrottleLimit (env : Option String) : Option Nat :=
  parseIntDec (jsOrStr env "100")

/-! Validation pipe: flattening of nested class-validator error trees.
A `class-validator` `ValidationError` carries a property name, the messages of
its violated constraints, the rejected value, and child errors for nested
sub-objects. The nesting is encoded with a mutual inductive so that all
functions compute by structural recursion. -/

mutual
inductive VError where
  | mk (property : String) (constraints : List String) (value : String) (children : VErrorList)
inductive VErrorList where
  | nil
  | cons (e : VError) (rest : VErrorList)
end

mutual
/-- Source `ValidationPipe.customFlattenValidationErrors` inner `extractErrors`: the
current dotted path is the property alone at the root (empty parent path is
falsy) and `parentPath.property` below; the node's constraint messages are
emitted first, each with the current path and the node's rejected value, then
the children are walked depth-first with the current path as parent. -/
def extractErrors (parentPath : String) : VError → List FlatErr
  | .mk prop cs v children =>
    let currentPath := if parentPath = "" then prop else parentPath ++ "." ++ prop
    cs.map (fun c => { fieldPath := currentPath, message := c, value := v }) ++
      extractChildren currentPath children
def extractChildren (path : String) : VErrorList → List FlatErr
  | .nil => []
  | .cons e rest => extractErrors path e ++ extractChildren path rest
end

/-- Source `ValidationPipe.customFlattenValidationErrors`: each top-level error is
extracted with an empty parent path. -/
def customFlattenValidationErrors : VErrorList → List FlatErr :=
  extractChildren ""

mutual
/-- Total number of violated constraints in an error tree (each constraint
message counts once, across all nesting levels). -/
def vTotal : VError → Nat
  | .mk _ cs _ children => cs.length + vTotalList children
def vTotalList : VErrorList → Nat
  | .nil => 0
  | .cons e rest => vTotal e + vTotalList rest
end

/-- The `exceptionFactory` of the custom `ValidationPipe`: a
`BadRequestException` (status 400) whose object body carries the message
`Validation failed` and the flattened violations under the `errors` key. -/
def validationExceptionFactory (validationErrors : VErrorList) : Exc :=
  .httpE 400
    (.obj (some (.str "Validation failed")) none
      (some (customFlattenValidationErrors validationErrors)))
    "BadRequestException" "Validation failed" none

/-! Date parsing pipes. -/

/-- Result of `ParseDatePipe.transform`: a parsed date (epoch milliseconds),
the undefined pass-through of optional mode, or a thrown
`BadRequestException` with its status and message. -/
inductive DateResult where
  | dateVal (t : Int)
  | undefinedVal
  | badRequest (status : Nat) (message : String)
deriving DecidableEq, Repr

/-- Source `ParseDatePipe.transform`. `jsDateParse` stands for the host `new Date`
constructor followed by the `isNaN(date.getTime())` test: `none` means the
string is not a valid date. `paramName` is `metadata.data`; `value` is falsy
when missing or empty. -/
def dateTransform (jsDateParse : String → Option Int) (optional : Bool)
    (paramName : Option String) (value : Option String) : DateResult :=
  match value with
  | none =>
    if optional then .undefinedVal
    else .badRequest 400
      ("Validation failed for " ++ jsOrStr paramName "parameter" ++
        ". Expected a valid date string.")
  | some s =>
    if s = "" then
      if optional then .undefinedVal
      else .badRequest 400
        ("Validation failed for " ++ jsOrStr paramName "parameter" ++
          ". Expected a valid date string.")
    else
      match jsDateParse s with
      | none => .badRequest 400
          ("Validation failed for " ++ jsOrStr paramName "parameter" ++
            ". \"" ++ s ++ "\" is not a valid date.")
      | some t => .dateVal t

/-- Source `ParseOptionalDatePipe`: the same transform constructed with the optional
flag set. -/
def optionalDateTransform (jsDateParse : String → Option Int)
    (paramName : Option String) (value : Option String) : DateResult :=
  dateTransform jsDateParse true paramName value

/-! Logging interceptor. -/

/-- A log record of the `LoggingInterceptor`: the request record, the
response record of the success path, or the error record of the failure path
(which carries `error.message`, absent for a non-`Error` failure). -/
inductive LogRecord where
  | startRec (method url ip userAgent : String)
  | endOk (method url : String) (statusCode responseTime dataSize : Nat)
  | endErr (method url : String) (statusCode responseTime : Nat) (errMessage : Option String)
deriving DecidableEq, Repr

def LogRecord.isStart : LogRecord → Bool
  | .startRec .. => true
  | _ => false

def LogRecord.isEnd : LogRecord → Bool
  | .startRec .. => false
  | _ => true

/-- Outcome of the wrapped chain (pipes plus handler) as observed by the
interceptor's subscription: a response value or a raised failure. -/
inductive Outcome (α : Type) where
  | ok (data : α)
  | err (e : Exc)
deriving DecidableEq, Repr

/-- Source `LoggingInterceptor.intercept`: one request record is emitted up front;
the returned observable taps the outcome, emitting on success the response
record (elapsed time, `response.statusCode`, serialized size) and on failure
the error record (elapsed time, `response.statusCode || 500`, the failure's
message); the tap re-emits the outcome unchanged in either case.
`dataSize` stands for `JSON.stringify(data).length`; `respStatus` is
`response.statusCode` with 0 for unset. -/
def intercept {α : Type} (dataSize : α → Nat) (req : Req) (t0 t1 : Nat)
    (respStatus : Nat) (outcome : Outcome α) : List LogRecord × Outcome α :=
  let startLog := LogRecord.startRec req.method req.url
    (jsOrStr req.ip (jsOrStr req.remoteAddress "")) req.userAgent
  let endLog :=
    match outcome with
    | .ok d => LogRecord.endOk req.method req.url respStatus (t1 - t0) (dataSize d)
    | .err e => LogRecord.endErr req.method req.url (jsOrNat respStatus 500) (t1 - t0)
        (excMessage e)
  ([startLog, endLog], outcome)

/-! Concrete requests used in witnesses and counterexamples. -/

/-- A request with a transport peer address and a matched route pattern. -/
def reqA : Req :=
  { method := "GET", url := "/api/v1/examples/dates/validate?date=2024-01-01"
    ip := some "10.0.0.1", remoteAddress := none
    routePath := some "/examples/dates/validate", userAgent := "curl/8.0" }

/-- A request with no transport address information at all. -/
def reqB : Req :=
  { method := "GET", url := "/health", ip := none, remoteAddress := none
    routePath := some "/health", userAgent := "" }

/-- C6: a handler fault of unrecognized type (not an HttpException, not a
QueryFailedError, not an Error) is normalized to the envelope with
statusCode 500 and error name UnknownError. -/
theorem c6_unknown_fault_envelope :
    ∀ (isDev : Bool) (ts : String) (req : Req),
    globalCatch isDev ts req .unknownE =
      { statusCode := 500, timestamp := ts, path := req.url, method := req.method
        error := "UnknownError", message := .str "Internal server error"
        details := none, stack := none } := by
  intro isDev ts req
  cases isDev <;> rfl

/-- C5: whenever the tier evaluation rejects, the guard raises the fixed
429 exception of `throwThrottlingException`, and the filter renders it as an
envelope with statusCode 429, message `Too Many Requests` and error
`ThrottlerException`. -/
theorem c5_throttle_rejection_envelope :
    ∀ (isDev : Bool) (ts : String) (req : Req),
    ((globalCatch isDev ts req (throttlerException req)).statusCode = 429
      ∧ (globalCatch isDev ts req (throttlerException req)).message = .str "Too Many Requests"
      ∧ (globalCatch isDev ts req (throttlerException req)).error = "ThrottlerException")
    ∧ ∀ (tiers : List TierCfg) (now : Nat) (st : Store),
        (checkTiers req now tiers st).2 = false →
        runGuardReq tiers req now st = .error (throttlerException req) := by
  intro isDev ts req
  refine ⟨⟨rfl, rfl, rfl⟩, ?_⟩
  intro tiers now st h
  simp [runGuardReq, h]

/-- C5 witness: a concrete rejecting configuration (limit 0) produces the
throttling exception. -/
theorem c5_witness :
    runGuardReq [{ name := "short", ttl := 60000, limit := 0 }] reqA 0 [] =
      .error (throttlerException reqA) :=
  (c5_throttle_rejection_envelope false "2024-01-01T00:00:00.000Z" reqA).2
    [{ name := "short", ttl := 60000, limit := 0 }] 0 [] (by decide)

/-- An exception with its stack removed; two exceptions agreeing after
erasure differ at most in their stack traces. -/
def eraseStack : Exc → Exc
  | .httpE st b n m _ => .httpE st b n m none
  | .queryFailedE m _ => .queryFailedE m none
  | .errorE n m _ => .errorE n m none
  | .unknownE => .unknownE

/-- C7: every envelope carries the request timestamp, path and method; the
stack field is exactly the failure's stack in development mode and absent
otherwise; and outside development mode two failures that differ only in
their stack produce identical envelopes. -/
theorem c7_envelope_stability :
    ∀ (isDev : Bool) (ts : String) (req : Req) (e e1 e2 : Exc),
    ((globalCatch isDev ts req e).timestamp = ts
      ∧ (globalCatch isDev ts req e).path = req.url
      ∧ (globalCatch isDev ts req e).method = req.method)
    ∧ (globalCatch isDev ts req e).stack = (if isDev then excStack e else none)
    ∧ (eraseStack e1 = eraseStack e2 →
        globalCatch false ts req e1 = globalCatch false ts req e2) := by
  intro isDev ts req e e1 e2
  refine ⟨⟨rfl, rfl, rfl⟩, rfl, ?_⟩
  intro h
  cases e1 <;> cases e2 <;> simp_all [eraseStack, globalCatch]

/-- C7 witness: two generic faults differing only in their stack render to
the same envelope outside development mode. -/
theorem c7_witness :
    globalCatch false "2024-01-01T00:00:00.000Z" reqA
        (.errorE "TypeError" "boom" (some "at handler (app.js:10)")) =
      globalCatch false "2024-01-01T00:00:00.000Z" reqA
        (.errorE "TypeError" "boom" (some "at other (app.js:99)")) :=
  (c7_envelope_stability false "2024-01-01T00:00:00.000Z" reqA .unknownE
      (.errorE "TypeError" "boom" (some "at handler (app.js:10)"))
      (.errorE "TypeError" "boom" (some "at other (app.js:99)"))).2.2 rfl

/-- C9: the interceptor emits exactly one request record and one completion
record for every outcome, the completion record of the failure path carries
the elapsed time, the status code with the 500 fallback, and the failure's
message, and the outcome is re-emitted unchanged (never absorbed). -/
theorem c9_logging_interceptor :
    ∀ (α : Type) (dataSize : α → Nat) (req : Req) (t0 t1 respStatus : Nat)
      (outcome : Outcome α) (e : Exc),
    ((intercept dataSize req t0 t1 respStatus outcome).2 = outcome
      ∧ ((intercept dataSize req t0 t1 respStatus outcome).1.filter LogRecord.isStart).length = 1
      ∧ ((intercept dataSize req t0 t1 respStatus outcome).1.filter LogRecord.isEnd).length = 1)
    ∧ (intercept dataSize req t0 t1 respStatus (.err e)).1 =
        [LogRecord.startRec req.method req.url
            (jsOrStr req.ip (jsOrStr req.remoteAddress "")) req.userAgent,
          LogRecord.endErr req.method req.url (jsOrNat respStatus 500) (t1 - t0)
            (excMessage e)] := by
  intro α dataSize req t0 t1 respStatus outcome e
  refine ⟨⟨?_, ?_, ?_⟩, rfl⟩ <;> cases outcome <;>
    simp [intercept, LogRecord.isStart, LogRecord.isEnd]

/-- C4: the bucket key is a tier name, client address and route key joined by
colons; the client address is the peer address when available and the literal
`unknown` when neither address source is present; the route key is the
matched route pattern, not the literal request url, whenever a route pattern
is registered. -/
theorem c4_bucket_key :
    ∀ (req : Req) (tierName pat addr : String),
    (req.routePath = some pat → pat ≠ "" →
        generateKey req (getTracker req) tierName =
          tierName ++ ":" ++ getTracker req ++ ":" ++ pat)
    ∧ (req.ip = some addr → addr ≠ "" → getTracker req = addr)
    ∧ (req.ip = none → req.remoteAddress = none → getTracker req = "unknown") := by
  intro req tierName pat addr
  refine ⟨?_, ?_, ?_⟩
  · intro h hne
    simp [generateKey, jsOrStr, h, hne]
  · intro h hne
    simp [getTracker, jsOrStr, h, hne]
  · intro h h'
    simp [getTracker, jsOrStr, h, h']

/-- C4 witness: concrete keys for a request with a peer address and for a
request with no address information. -/
theorem c4_witness :
    generateKey reqA (getTracker reqA) "short" =
      "short" ++ ":" ++ getTracker reqA ++ ":" ++ "/examples/dates/validate"
    ∧ getTracker reqA = "10.0.0.1"
    ∧ getTracker reqB = "unknown" :=
  ⟨(c4_bucket_key reqA "short" "/examples/dates/validate" "10.0.0.1").1 rfl (by decide),
    (c4_bucket_key reqA "short" "/examples/dates/validate" "10.0.0.1").2.1 rfl (by decide),
    (c4_bucket_key reqB "short" "/health" "x").2.2 rfl rfl⟩

/-- The empty-input message and the malformed-input message of the date pipe
differ for every parameter name and every rejected value. -/
theorem dateMessages_distinct (p v : String) :
    ("Validation failed for " ++ p ++ ". Expected a valid date string.") ≠
      ("Validation failed for " ++ p ++ ". \"" ++ v ++ "\" is not a valid date.") := by
  intro h
  have hd := congrArg String.data h
  simp only [String.data_append, List.append_assoc] at hd
  have hc := List.append_cancel_left (List.append_cancel_left hd)
  simp only [List.cons_append, List.nil_append, List.cons.injEq] at hc
  exact absurd hc.2.2.1 (by decide)

/-- C8: the optional date parse maps a missing or empty value to the
undefined sentinel (the same sentinel on every invocation, the transform
being a function of its input), and rejects every structurally invalid
non-empty string with a 400 failure. -/
theorem c8_optional_date_parse :
    ∀ (jsDateParse : String → Option Int) (paramName : Option String) (v : String),
    (optionalDateTransform jsDateParse paramName none = .undefinedVal
      ∧ optionalDateTransform jsDateParse paramName (some "") = .undefinedVal)
    ∧ (v ≠ "" → jsDateParse v = none →
        optionalDateTransform jsDateParse paramName (some v) =
          .badRequest 400 ("Validation failed for " ++ jsOrStr paramName "parameter" ++
            ". \"" ++ v ++ "\" is not a valid date.")) := by
  intro jsDateParse paramName v
  refine ⟨⟨rfl, rfl⟩, ?_⟩
  intro hne hparse
  simp [optionalDateTransform, dateTransform, hne, hparse]

/-- C8 witness: the concrete malformed value `not-a-date` is rejected with
status 400 under a date parser that rejects it. -/
theorem c8_witness :
    optionalDateTransform (fun _ => none) (some "date") (some "not-a-date") =
      .badRequest 400 ("Validation failed for " ++ jsOrStr (some "date") "parameter" ++
        ". \"" ++ "not-a-date" ++ "\" is not a valid date.") :=
  (c8_optional_date_parse (fun _ => none) (some "date") "not-a-date").2 (by decide) rfl

/-- C10: without the optional flag a missing or empty value is rejected with
a 400 failure carrying the expected-a-valid-date-string message for the named
parameter, a message distinct from the malformed-value message; the undefined
sentinel is never produced without the optional flag, and is produced with
it. -/
theorem c10_nonoptional_empty_date :
    ∀ (jsDateParse : String → Option Int) (paramName : Option String) (v : String),
    (dateTransform jsDateParse false paramName none =
        .badRequest 400 ("Validation failed for " ++ jsOrStr paramName "parameter" ++
          ". Expected a valid date string.")
      ∧ dateTransform jsDateParse false paramName (some "") =
        .badRequest 400 ("Validation failed for " ++ jsOrStr paramName "parameter" ++
          ". Expected a valid date string."))
    ∧ (∀ w, dateTransform jsDateParse false paramName w ≠ .undefinedVal)
    ∧ dateTransform jsDateParse true paramName none = .undefinedVal
    ∧ (v ≠ "" → jsDateParse v = none →
        dateTransform jsDateParse false paramName (some v) =
          .badRequest 400 ("Validation failed for " ++ jsOrStr paramName "parameter" ++
            ". \"" ++ v ++ "\" is not a valid date.")
        ∧ ("Validation failed for " ++ jsOrStr paramName "parameter" ++
            ". Expected a valid date string.") ≠
          ("Validation failed for " ++ jsOrStr paramName "parameter" ++
            ". \"" ++ v ++ "\" is not a valid date.")) := by
  intro jsDateParse paramName v
  refine ⟨⟨rfl, rfl⟩, ?_, rfl, ?_⟩
  · intro w
    match w with
    | none => simp [dateTransform]
    | some s =>
      by_cases hs : s = ""
      · simp [dateTransform, hs]
      · cases hp : jsDateParse s <;> simp [dateTransform, hs, hp]
  · intro hne hparse
    exact ⟨by simp [dateTransform, hne, hparse],
      dateMessages_distinct (jsOrStr paramName "parameter") v⟩

/-- C10 witness: concrete empty and malformed inputs for the parameter named
`date`. -/
theorem c10_witness :
    dateTransform (fun _ => none) false (some "date") (some "") =
      .badRequest 400 ("Validation failed for " ++ jsOrStr (some "date") "parameter" ++
        ". Expected a valid date string.")
    ∧ dateTransform (fun _ => none) false (some "date") (some "not-a-date") =
      .badRequest 400 ("Validation failed for " ++ jsOrStr (some "date") "parameter" ++
        ". \"" ++ "not-a-date" ++ "\" is not a valid date.") :=
  ⟨(c10_nonoptional_empty_date (fun _ => none) (some "date") "not-a-date").1.2,
    ((c10_nonoptional_empty_date (fun _ => none) (some "date") "not-a-date").2.2.2
      (by decide) rfl).1⟩

/-- C3: with the default base window (THROTTLE_TTL unset parses to 60000 ms,
one minute), the three configured tiers are short, medium and long with
windows of one minute (60000 ms), ten minutes (600000 ms) and one hour
(3600000 ms) and limits of base, ten times base and sixty times base for
every configured base limit; a request is admitted exactly when it passes the
short, the medium and the long tier in sequence. -/
theorem c3_three_tier_configuration :
    ∀ (base : Nat) (req : Req) (now : Nat) (st : Store),
    configThrottleTtl none = some 60000
    ∧ appThrottlers (configThrottleTtl none) (some base) =
        [ { name := "short", ttl := 60000, limit := base },
          { name := "medium", ttl := 600000, limit := base * 10 },
          { name := "long", ttl := 3600000, limit := base * 60 } ]
    ∧ (checkTiers req now (appThrottlers (configThrottleTtl none) (some base)) st).2 =
        ((checkOne req now { name := "short", ttl := 60000, limit := base } st).2
          && (checkOne req now { name := "medium", ttl := 600000, limit := base * 10 }
                (checkOne req now { name := "short", ttl := 60000, limit := base } st).1).2
          && (checkOne req now { name := "long", ttl := 3600000, limit := base * 60 }
                (checkOne req now { name := "medium", ttl := 600000, limit := base * 10 }
                  (checkOne req now { name := "short", ttl := 60000, limit := base } st).1).1).2) := by
  intro base req now st
  have hl : appThrottlers (configThrottleTtl none) (some base) =
      [ { name := "short", ttl := 60000, limit := base },
        { name := "medium", ttl := 600000, limit := base * 10 },
        { name := "long", ttl := 3600000, limit := base * 60 } ] := rfl
  refine ⟨rfl, hl, ?_⟩
  rw [hl]
  cases h1 : (checkOne req now { name := "short", ttl := 60000, limit := base } st).2 <;>
    cases h2 : (checkOne req now { name := "medium", ttl := 600000, limit := base * 10 }
        (checkOne req now { name := "short", ttl := 60000, limit := base } st).1).2 <;>
    cases h3 : (checkOne req now { name := "long", ttl := 3600000, limit := base * 60 }
        (checkOne req now { name := "medium", ttl := 600000, limit := base * 10 }
          (checkOne req now { name := "short", ttl := 60000, limit := base } st).1).1).2 <;>
    simp [checkTiers, h1, h2, h3]

/-- The claim's reading of a per-endpoint override: admission decided solely
by the declared (limit, ttl) pair, i.e. a single windowed check with that
pair and no other tier. Stated from the spec's words for comparison with the
guard's actual dispatch. -/
def declaredOnlyRun (limit ttl : Nat) (req : Req) (st : Store) (times : List Nat) : List Bool :=
  guardRun [{ name := "default", ttl := ttl, limit := limit }] req st times

/-- C1 counterexample: on a route decorated with `ThrottleEndpoint.Custom 5`,
the declared single-tier limit of 5 per minute would reject the sixth request
of a burst, but the guard admits all six: the `Custom` metadata names a
throttler called `default`, none of the configured short, medium and long
throttlers carries that name, so the global three-tier check still decides
admission and the declared pair imposes nothing. -/
theorem c1_counterexample :
    guardRun (effectiveTiers (ThrottleEndpoint.Custom 5 60000)
        (appThrottlers (configThrottleTtl none) (configThrottleLimit none)))
      reqA [] [0, 0, 0, 0, 0, 0] = [true, true, true, true, true, true]
    ∧ declaredOnlyRun 5 60000 reqA [] [0, 0, 0, 0, 0, 0] =
        [true, true, true, true, true, false] := by
  refine ⟨by decide, by decide⟩

/-- C1 amended: a per-endpoint `Throttle` override replaces the window and
limit only of the configured throttlers whose name it carries. Strict,
Moderate and Lenient name only the `short` throttler, so the global medium
and long tiers stay in force unchanged; `Custom` names a `default` throttler
that is not configured, so it leaves all three global tiers unchanged and
admission under a `Custom` override is identical to admission with no
override at all. -/
theorem c1_amended_override_scope :
    ∀ (cfgTtl cfgLimit limit ttl : Nat),
    effectiveTiers (ThrottleEndpoint.Custom limit ttl)
        (appThrottlers (some cfgTtl) (some cfgLimit)) =
      appThrottlers (some cfgTtl) (some cfgLimit)
    ∧ effectiveTiers ThrottleEndpoint.Strict (appThrottlers (some cfgTtl) (some cfgLimit)) =
        [ { name := "short", ttl := 60000, limit := 10 },
          { name := "medium", ttl := cfgTtl * 10, limit := cfgLimit * 10 },
          { name := "long", ttl := cfgTtl * 60, limit := cfgLimit * 60 } ]
    ∧ effectiveTiers ThrottleEndpoint.Moderate (appThrottlers (some cfgTtl) (some cfgLimit)) =
        [ { name := "short", ttl := 60000, limit := 30 },
          { name := "medium", ttl := cfgTtl * 10, limit := cfgLimit * 10 },
          { name := "long", ttl := cfgTtl * 60, limit := cfgLimit * 60 } ]
    ∧ effectiveTiers ThrottleEndpoint.Lenient (appThrottlers (some cfgTtl) (some cfgLimit)) =
        [ { name := "short", ttl := 60000, limit := 100 },
          { name := "medium", ttl := cfgTtl * 10, limit := cfgLimit * 10 },
          { name := "long", ttl := cfgTtl * 60, limit := cfgLimit * 60 } ]
    ∧ (∀ (req : Req) (st : Store) (times : List Nat),
        guardRun (effectiveTiers (ThrottleEndpoint.Custom limit ttl)
            (appThrottlers (some cfgTtl) (some cfgLimit))) req st times =
          guardRun (appThrottlers (some cfgTtl) (some cfgLimit)) req st times) := by
  intro cfgTtl cfgLimit limit ttl
  have hc : effectiveTiers (ThrottleEndpoint.Custom limit ttl)
      (appThrottlers (some cfgTtl) (some cfgLimit)) =
      appThrottlers (some cfgTtl) (some cfgLimit) := rfl
  exact ⟨hc, rfl, rfl, rfl, fun req st times => by rw [hc]⟩

mutual
/-- The flattening emits exactly one entry per violated constraint of the
tree, whatever the parent path. -/
theorem extractErrors_length (e : VError) :
    ∀ path, (extractErrors path e).length = vTotal e := by
  match e with
  | .mk prop cs v children =>
    intro path
    simp [extractErrors, vTotal, extractChildren_length children]
/-- The flattening emits exactly one entry per violated constraint of the
list of trees, whatever the parent path. -/
theorem extractChildren_length (es : VErrorList) :
    ∀ path, (extractChildren path es).length = vTotalList es := by
  match es with
  | .nil => intro path; simp [extractChildren, vTotalList]
  | .cons e rest =>
    intro path
    simp [extractChildren, vTotalList, extractErrors_length e, extractChildren_length rest]
end

/-- A nested validation error: a `user` object whose `email` and `name`
sub-fields each violate one constraint. -/
def vErrEx : VError :=
  .mk "user" [] ""
    (.cons (.mk "email" ["email must be an email"] "not-an-email" .nil)
      (.cons (.mk "name" ["name should not be empty"] "" .nil) .nil))

/-- C2 counterexample: the two nested violations are flattened with dotted
depth-first paths, but the envelope the global filter produces for the
validation exception carries no details at all — the flattened list is not
carried as `details` (the exception body holds it under `errors`, which the
filter drops). -/
theorem c2_counterexample :
    customFlattenValidationErrors (.cons vErrEx .nil) =
      [ { fieldPath := "user.email", message := "email must be an email"
          value := "not-an-email" },
        { fieldPath := "user.name", message := "name should not be empty"
          value := "" } ]
    ∧ (globalCatch false "2024-01-01T00:00:00.000Z" reqA
        (validationExceptionFactory (.cons vErrEx .nil))).details = none
    ∧ (globalCatch false "2024-01-01T00:00:00.000Z" reqA
          (validationExceptionFactory (.cons vErrEx .nil))).details ≠
        some (customFlattenValidationErrors (.cons vErrEx .nil)) := by
  refine ⟨by decide, rfl, by decide⟩

/-- C2 amended: validation failures raise a 400 `BadRequestException` whose
body message is `Validation failed` and whose body carries the flattened
violation list under the `errors` key — exactly one entry per violated
constraint across the whole input; the error envelope rendered by the global
filter reports status 400, error `BadRequestException` and message
`Validation failed`, and does not carry the violation list. -/
theorem c2_amended_validation_envelope :
    ∀ (errs : VErrorList) (isDev : Bool) (ts : String) (req : Req),
    excStatus (validationExceptionFactory errs) = 400
    ∧ bodyErrorsList (validationExceptionFactory errs) =
        some (customFlattenValidationErrors errs)
    ∧ (customFlattenValidationErrors errs).length = vTotalList errs
    ∧ globalCatch isDev ts req (validationExceptionFactory errs) =
        { statusCode := 400, timestamp := ts, path := req.url, method := req.method
          error := "BadRequestException", message := .str "Validation failed"
          details := none, stack := none } := by
  intro errs isDev ts req
  refine ⟨rfl, rfl, extractChildren_length errs "", ?_⟩
  cases isDev <;> rfl
